import Mathlib

/-!
Verification of the toggl-invoice-generator program.

The Python source is embedded shallowly:

* Python float arithmetic is modelled by exact rational arithmetic on ℚ.
  To keep every definition kernel-computable (the Batteries operations
  Rat.add, Rat.sub, Rat.mul and Rat.inv are irreducible), the embedding
  uses the wrappers ratAdd, ratSub, ratMul and ratDiv built from mkRat
  and Rat.divInt; each is proved equal to the corresponding field
  operation on ℚ below, so theorem statements can use ordinary notation.
* datetime values are modelled as integer timestamps (seconds since an
  epoch, UTC), and calendar dates as integer day numbers, with midnight
  of day d at second d * 86400; timedelta(days = k) is + k on day
  numbers.
* Python int() truncation toward zero is pythonInt, Python round(x, 2)
  (round half to even at two decimals) is pyRound2, and the format
  specifier {:.2f} is formatFixed2.
* The HTTP layer is abstracted: the Toggl API is a parameter giving the
  entries returned for a queried window, and an HTTP response is a
  record of status code, body bytes and body text.
-/

namespace TogglInvoice

/-! ### Exact rational arithmetic, kernel-computable -/

/-- Addition on ℚ via mkRat (kernel-computable, unlike the irreducible Rat.add). -/
def ratAdd (a b : ℚ) : ℚ := mkRat (a.num * b.den + b.num * a.den) (a.den * b.den)

/-- Subtraction on ℚ via mkRat. -/
def ratSub (a b : ℚ) : ℚ := mkRat (a.num * b.den - b.num * a.den) (a.den * b.den)

/-- Multiplication on ℚ via mkRat. -/
def ratMul (a b : ℚ) : ℚ := mkRat (a.num * b.num) (a.den * b.den)

/-- Division on ℚ via Rat.divInt. Like the field division, division by zero gives zero. -/
def ratDiv (a b : ℚ) : ℚ := Rat.divInt (a.num * b.den) (a.den * b.num)

theorem ratAdd_eq (a b : ℚ) : ratAdd a b = a + b := by
  rw [ratAdd, Rat.mkRat_eq_div]
  conv_rhs => rw [← Rat.num_div_den a, ← Rat.num_div_den b]
  have ha : ((a.den : ℚ)) ≠ 0 := by exact_mod_cast a.den_nz
  have hb : ((b.den : ℚ)) ≠ 0 := by exact_mod_cast b.den_nz
  push_cast
  field_simp

theorem ratSub_eq (a b : ℚ) : ratSub a b = a - b := by
  rw [ratSub, Rat.mkRat_eq_div]
  conv_rhs => rw [← Rat.num_div_den a, ← Rat.num_div_den b]
  have ha : ((a.den : ℚ)) ≠ 0 := by exact_mod_cast a.den_nz
  have hb : ((b.den : ℚ)) ≠ 0 := by exact_mod_cast b.den_nz
  push_cast
  field_simp
  ring

theorem ratMul_eq (a b : ℚ) : ratMul a b = a * b := by
  rw [ratMul, Rat.mkRat_eq_div]
  conv_rhs => rw [← Rat.num_div_den a, ← Rat.num_div_den b]
  have ha : ((a.den : ℚ)) ≠ 0 := by exact_mod_cast a.den_nz
  have hb : ((b.den : ℚ)) ≠ 0 := by exact_mod_cast b.den_nz
  push_cast
  field_simp

theorem ratDiv_eq (a b : ℚ) : ratDiv a b = a / b := by
  rw [ratDiv, Rat.divInt_eq_div]
  rcases eq_or_ne b 0 with rfl | hb
  · simp
  · have hbn : (b.num : ℚ) ≠ 0 := by exact_mod_cast Rat.num_ne_zero.mpr hb
    have ha : ((a.den : ℚ)) ≠ 0 := by exact_mod_cast a.den_nz
    have hbd : ((b.den : ℚ)) ≠ 0 := by exact_mod_cast b.den_nz
    conv_rhs => rw [← Rat.num_div_den a, ← Rat.num_div_den b]
    push_cast
    field_simp

/-- Python sum() over rationals: a left fold of + starting from 0. -/
def pySum (l : List ℚ) : ℚ := l.foldl ratAdd 0

theorem pySum_eq (l : List ℚ) : pySum l = l.sum := by
  have h : ∀ (a : ℚ), l.foldl ratAdd a = a + l.sum := by
    induction l with
    | nil => intro a; simp [List.foldl]
    | cons x xs ih =>
      intro a
      simp only [List.foldl, List.sum_cons, ratAdd_eq, ih, add_assoc]
  rw [pySum, h, zero_add]

/-! ### Python numeric primitives -/

/-- Python int() applied to a float: truncation toward zero. -/
def pythonInt (q : ℚ) : Int := if 0 ≤ q then ⌊q⌋ else ⌈q⌉

/-- Round half to even to the nearest integer, as Python round() does. -/
def roundHalfEven (q : ℚ) : Int :=
  let f : Int := ⌊q⌋
  let r : ℚ := ratSub q (f : ℚ)
  if r < mkRat 1 2 then f
  else if mkRat 1 2 < r then f + 1
  else if f % 2 = 0 then f else f + 1

/-- Python round(x, 2): round half to even at two decimal places. -/
def pyRound2 (q : ℚ) : ℚ := ratDiv ((roundHalfEven (ratMul q 100) : Int) : ℚ) 100

/-- Two-digit zero padding for the fractional part of a fixed-point print. -/
def pad2 (n : Int) : String := if n < 10 then "0" ++ toString n else toString n

/-- Python format specifier {:.2f}: fixed-point with two decimals, round half to even. -/
def formatFixed2 (q : ℚ) : String :=
  let n := roundHalfEven (ratMul q 100)
  if n < 0 then "-" ++ toString ((-n) / 100) ++ "." ++ pad2 ((-n) % 100)
  else toString (n / 100) ++ "." ++ pad2 (n % 100)

/-! ### Data model (toggl.py and config.py) -/

/-- TimeEntry from toggl.py: one tracked interval. Timestamps are seconds since the
epoch, UTC. -/
structure TimeEntry where
  client_name : String
  duration : Int
  project_name : String
  project_id : Int
  start : Int
  stop : Int
deriving DecidableEq, Repr

/-- TimeEntry.hours from toggl.py: seconds converted to hours, rounded to 2 decimal
places, round(self.duration / 3600, 2). -/
def TimeEntry.hours (t : TimeEntry) : ℚ := pyRound2 (ratDiv ((t.duration : Int) : ℚ) 3600)

/-- Project from config.py: project_id, optional display name (defaulting to the
string below in the source) and hourly rate. -/
structure Project where
  project_id : Int
  name : Option String := some "<unknown>"
  hourly_rate : ℚ
deriving DecidableEq, Repr

/-! ### analyze.py -/

/-- ProjectSummary from analyze.py (its stored fields; the computed fields follow
as functions). -/
structure ProjectSummary where
  project : Project
  hours : ℚ
  entries : List TimeEntry
deriving DecidableEq, Repr

/-- ProjectSummary.total_revenue: self.hours * self.project.hourly_rate. -/
def ProjectSummary.total_revenue (s : ProjectSummary) : ℚ :=
  ratMul s.hours s.project.hourly_rate

/-- Python f-string interpolation of an Optional[str] value: None prints as the
string None. -/
def optStrPy : Option String → String
  | some s => s
  | none => "None"

/-- ProjectSummary.hour_minute_format:
hours = int(self.hours); minutes = int((self.hours - hours) * 60). -/
def ProjectSummary.hour_minute_format (s : ProjectSummary) : String :=
  let hours : Int := pythonInt s.hours
  let minutes : Int := pythonInt (ratMul (ratSub s.hours (hours : ℚ)) 60)
  toString hours ++ "h " ++ toString minutes ++ "m"

/-- ProjectSummary.short_summary:
f-string of self.project.name, self.hour_minute_format and self.total_revenue:.2f. -/
def ProjectSummary.short_summary (s : ProjectSummary) : String :=
  optStrPy s.project.name ++ " - " ++ s.hour_minute_format ++ " - " ++
    formatFixed2 s.total_revenue

/-- summarize_time_entries from analyze.py: for each project, sum the hours of the
entries whose project_id equals the project id, and build a ProjectSummary carrying
the whole input entry list. (The total_revenue keyword argument passed in the source
is a computed field of the pydantic model and is recomputed, so it is not a stored
field here.) -/
def summarize_time_entries (time_entries : List TimeEntry) (projects : List Project) :
    List ProjectSummary :=
  projects.map (fun project =>
    let hours := pySum ((time_entries.filter
      (fun t => t.project_id == project.project_id)).map TimeEntry.hours)
    { project := project, hours := hours, entries := time_entries })

/-! ### toggl.py client -/

/-- Midnight UTC at the beginning of calendar day d, as a timestamp: the source
builds it with strptime followed by replace(hour=0, minute=0, second=0,
tzinfo=timezone.utc). -/
def midnightUTC (d : Int) : Int := d * 86400

/-- 23:59:59 UTC on calendar day d, as a timestamp: strptime followed by
replace(hour=23, minute=59, second=59, tzinfo=timezone.utc). -/
def endOfDayUTC (d : Int) : Int := d * 86400 + 86399

/-- The UTC calendar day containing a timestamp (datetime.date() of an entry
timestamp; the run is modelled with the local clock equal to UTC). -/
def dayOfTimestamp (ts : Int) : Int := ts / 86400

/-- TogglClient.get_time_entries from toggl.py, translated statement by statement.

today is the calendar day of datetime.now(); fetch abstracts the HTTP GET of
api/v9/me/time_entries, giving the entries the API returns for the queried
start_date and end_date parameters.

The source first replaces a missing start_date by today - 30 days and a missing
end_date by today + 1 day, so after those two statements both locals are always
present; in particular the final branch testing start_date is None and
end_date is None can never run. -/
def get_time_entries (today : Int) (start_date₀ end_date₀ : Option Int)
    (fetch : Int → Int → List TimeEntry) : List TimeEntry :=
  -- if start_date is None: start_date = now - 30 days
  let start_date : Option Int := some (start_date₀.getD (today - 30))
  -- if end_date is None: end_date = now + 1 day
  let end_date : Option Int := some (end_date₀.getD (today + 1))
  -- if start_date is not None: api_start_date = start_date - 1 day
  let api_start_date : Int := match start_date with
    | some s => s - 1
    | none => 0
  -- if end_date is not None: api_end_date = end_date + 2 days
  let api_end_date : Int := match end_date with
    | some e => e + 2
    | none => 0
  let time_entries := fetch api_start_date api_end_date
  -- if start_date is not None: keep entries with entry.start >= midnight UTC
  let time_entries := match start_date with
    | some s => time_entries.filter (fun t => decide (midnightUTC s ≤ t.start))
    | none => time_entries
  -- if end_date is not None: keep entries with entry.start <= 23:59:59 UTC next day
  let time_entries := match end_date with
    | some e => time_entries.filter (fun t => decide (t.start ≤ endOfDayUTC (e + 1)))
    | none => time_entries
  -- if start_date is None and end_date is None: same-day filters (dead branch,
  -- since both locals were overwritten above)
  let time_entries := if start_date.isNone && end_date.isNone then
      (time_entries.filter (fun t => decide (dayOfTimestamp t.start ≤ today))).filter
        (fun t => decide (dayOfTimestamp t.stop ≤ today))
    else time_entries
  time_entries

/-- An HTTP response as the report download sees it: status code, raw body bytes
and body text. -/
structure HttpResponse where
  status_code : Int
  content : List UInt8
  text : String

/-- The response handling of TogglClient.download_report from toggl.py: on status
200 the raw bytes are written to the file named filename (modelled as the returned
pair), otherwise an Exception is raised whose message interpolates the status code
and the response text, and nothing is written. -/
def download_report_handle (resp : HttpResponse) (filename : String) :
    Except String (String × List UInt8) :=
  if resp.status_code = 200 then
    Except.ok (filename, resp.content)
  else
    Except.error ("Failed to download report: " ++ toString resp.status_code ++ " " ++
      resp.text)

/-- pydantic validation of a TimeEntry (TimeEntry.model_validate): the model in
toggl.py declares only the six typed fields and no validator, so validation of
well-typed field values always succeeds and relates start and stop in no way. -/
def TimeEntry.model_validate (client_name : String) (duration : Int)
    (project_name : String) (project_id : Int) (start stop : Int) :
    Except String TimeEntry :=
  Except.ok { client_name, duration, project_name, project_id, start, stop }

/-! ### invoice.py -/

/-- InvoiceLineItem from invoice.py (stored fields). -/
structure InvoiceLineItem where
  project_name : String
  hours : ℚ
  hourly_rate : ℚ
deriving DecidableEq, Repr

/-- InvoiceLineItem.amount: round(self.hours * self.hourly_rate, 2). -/
def InvoiceLineItem.amount (i : InvoiceLineItem) : ℚ :=
  pyRound2 (ratMul i.hours i.hourly_rate)

/-- The display name used for a line item in
InvoiceGenerator.generate_pdf_invoice_from_summaries:
summary.project.name or a fallback interpolating the project id (a None or empty
name is falsy in Python and selects the fallback). -/
def projectDisplayName (p : Project) : String :=
  match p.name with
  | some n => if n = "" then "Project " ++ toString p.project_id else n
  | none => "Project " ++ toString p.project_id

/-- The line items built by generate_pdf_invoice_from_summaries: one per summary
with hours > 0, in order. -/
def lineItemsFromSummaries (summaries : List ProjectSummary) : List InvoiceLineItem :=
  (summaries.filter (fun s => decide (0 < s.hours))).map (fun s =>
    { project_name := projectDisplayName s.project
      hours := s.hours
      hourly_rate := s.project.hourly_rate })

/-- One body row of the invoice table, as built in the loop of
generate_pdf_invoice_from_summaries. -/
def itemRow (i : InvoiceLineItem) : List String :=
  [i.project_name, formatFixed2 i.hours, "$" ++ formatFixed2 i.hourly_rate,
   "$" ++ formatFixed2 i.amount]

/-- The table_data list built by generate_pdf_invoice_from_summaries: a header row,
one row per line item, and a TOTAL row with total_hours and total_amount summed
over the line items. -/
def invoiceTableData (summaries : List ProjectSummary) : List (List String) :=
  let line_items := lineItemsFromSummaries summaries
  let total_amount := pySum (line_items.map InvoiceLineItem.amount)
  let total_hours := pySum (line_items.map (fun i => i.hours))
  [["Project", "Hours", "Rate", "Amount"]]
    ++ line_items.map itemRow
    ++ [["TOTAL", formatFixed2 total_hours, "", "$" ++ formatFixed2 total_amount]]

/-! ### Claim theorems -/

/-- C1: for an explicitly requested range of calendar days s..e, get_time_entries
queries the API with the window widened to s - 1 .. e + 2, and returns exactly the
fetched entries whose start timestamp is at or after midnight UTC on day s and at
or before 23:59:59 UTC on the day after e. -/
theorem get_time_entries_explicit_window_and_filter (today s e : Int)
    (fetch : Int → Int → List TimeEntry) :
    get_time_entries today (some s) (some e) fetch =
      (fetch (s - 1) (e + 2)).filter (fun t =>
        decide (s * 86400 ≤ t.start) && decide (t.start ≤ (e + 1) * 86400 + 86399)) := by
  simp only [get_time_entries, Option.getD_some, Option.isNone_some, Bool.and_self,
    Bool.false_eq_true, if_false, midnightUTC, endOfDayUTC, List.filter_filter]
  exact List.filter_congr fun t _ => by rw [Bool.and_comm]

/-- C2: with no explicit dates the range defaults to the trailing 30 days through
tomorrow, but the same-day post-filter claimed for this case never runs: the branch
guarding it tests the local variables after the defaults overwrote the missing
markers. Concretely, with today = day 0 and the API returning a single entry whose
start and stop lie on day 1 (tomorrow), get_time_entries returns that entry instead
of discarding it. -/
theorem get_time_entries_default_keeps_next_day_entry :
    get_time_entries 0 none none
      (fun _ _ => [{ client_name := "c", duration := 3600, project_name := "p",
                     project_id := 1, start := 129600, stop := 133200 }]) =
      [{ client_name := "c", duration := 3600, project_name := "p",
         project_id := 1, start := 129600, stop := 133200 }] := by decide

/-- Time entry of the C3 scenario: 2.45 hours (8820 seconds) on project 123456. -/
def c3Entry : TimeEntry :=
  { client_name := "client", duration := 8820, project_name := "proj",
    project_id := 123456, start := 0, stop := 8820 }

/-- Project of the C3 scenario: project 123456 at hourly rate 75. -/
def c3Project : Project :=
  { project_id := 123456, name := some "Acme", hourly_rate := 75 }

/-- C3 counterexample: on 3 entries of 2.45 hours each at rate 75 the rendered
short summary is not "... 7h 20m - 551.25" — the minute part of 7.35 hours is
floor(0.35 * 60) = 21, not 20. -/
theorem short_summary_scenario_counterexample :
    (summarize_time_entries [c3Entry, c3Entry, c3Entry] [c3Project]).map
      ProjectSummary.short_summary ≠ ["Acme - 7h 20m - 551.25"] := by decide

/-- C3 as amended: the scenario yields hours = 7.35 and total revenue 551.25,
rendered as "7h 21m - 551.25". -/
theorem short_summary_scenario :
    (summarize_time_entries [c3Entry, c3Entry, c3Entry] [c3Project]).map
      (fun s => (s.hours, s.total_revenue, s.short_summary)) =
      [((7.35 : ℚ), (551.25 : ℚ), "Acme - 7h 21m - 551.25")] := by
  have h1 : (7.35 : ℚ) = mkRat 147 20 := by rw [Rat.mkRat_eq_div]; norm_num
  have h2 : (551.25 : ℚ) = mkRat 2205 4 := by rw [Rat.mkRat_eq_div]; norm_num
  rw [h1, h2]
  decide

/-- C4: the hours of each summary equal the sum, over the entries whose project_id
matches that summary's project, of the per-entry duration divided by 3600 and
rounded to 2 decimal places — rounding per entry before summation. -/
theorem summarize_hours_round_per_entry_then_sum (te : List TimeEntry)
    (ps : List Project) :
    (summarize_time_entries te ps).map (fun s => s.hours) =
      ps.map (fun p => ((te.filter (fun t => t.project_id == p.project_id)).map
        (fun t => pyRound2 ((t.duration : ℚ) / 3600))).sum) := by
  have hh : TimeEntry.hours = fun t : TimeEntry => pyRound2 ((t.duration : ℚ) / 3600) :=
    funext fun t => by rw [TimeEntry.hours, ratDiv_eq]
  simp [summarize_time_entries, hh, pySum_eq, List.map_map, Function.comp]

/-- C5: summarize_time_entries yields exactly one summary per input project, in
order, and a project with no matching entries gets hours 0 and total revenue 0. -/
theorem summarize_one_summary_per_project (te : List TimeEntry) (ps : List Project) :
    (summarize_time_entries te ps).map (fun s => s.project) = ps ∧
    ∀ s ∈ summarize_time_entries te ps,
      (∀ t ∈ te, t.project_id ≠ s.project.project_id) →
        s.hours = 0 ∧ s.total_revenue = 0 := by
  constructor
  · rw [summarize_time_entries, List.map_map]
    show ps.map (fun p => p) = ps
    simp
  · intro s hs hnone
    simp only [summarize_time_entries, List.mem_map] at hs
    obtain ⟨p, hp, rfl⟩ := hs
    have hfilter : te.filter (fun t => t.project_id == p.project_id) = [] := by
      rw [List.filter_eq_nil_iff]
      intro t ht
      simpa using hnone t ht
    simp [hfilter, pySum, ProjectSummary.total_revenue, ratMul_eq]

/-- Entry used by the C5 witness: it belongs to project 99. -/
def c5Entry : TimeEntry :=
  { client_name := "c", duration := 3600, project_name := "p",
    project_id := 99, start := 0, stop := 3600 }

/-- Project used by the C5 witness: project 1, matching no entry. -/
def c5Project : Project := { project_id := 1, name := some "A", hourly_rate := 10 }

/-- The summary the C5 witness expects for the unmatched project. -/
def c5Summary : ProjectSummary :=
  { project := c5Project, hours := 0, entries := [c5Entry] }

/-- C5 witness: one entry on project 99 and one configured project 1; the project
list maps to itself and the unmatched project summarizes to zero hours and revenue. -/
theorem summarize_one_summary_per_project_witness :
    ((summarize_time_entries [c5Entry] [c5Project]).map (fun s => s.project) =
      [c5Project]) ∧
    (c5Summary.hours = 0 ∧ c5Summary.total_revenue = 0) := by
  have h := summarize_one_summary_per_project [c5Entry] [c5Project]
  exact ⟨h.1, h.2 c5Summary (by decide) (by decide)⟩

/-- C6: the invoice table consists of the header, one row per summary with hours
strictly greater than 0 (in order, zero-hour summaries excluded), and a TOTAL row
whose amount is the sum of the included line-item amounts, each amount being
hours times rate rounded to 2 decimals before the summation. -/
theorem invoice_table_rows_and_total (summaries : List ProjectSummary) :
    invoiceTableData summaries =
      [["Project", "Hours", "Rate", "Amount"]]
        ++ (summaries.filter (fun s => decide (0 < s.hours))).map (fun s =>
            [projectDisplayName s.project, formatFixed2 s.hours,
             "$" ++ formatFixed2 s.project.hourly_rate,
             "$" ++ formatFixed2 (pyRound2 (s.hours * s.project.hourly_rate))])
        ++ [["TOTAL",
             formatFixed2 ((summaries.filter (fun s => decide (0 < s.hours))).map
               (fun s => s.hours)).sum,
             "",
             "$" ++ formatFixed2 ((summaries.filter (fun s => decide (0 < s.hours))).map
               (fun s => pyRound2 (s.hours * s.project.hourly_rate))).sum]] := by
  simp [invoiceTableData, lineItemsFromSummaries, itemRow, InvoiceLineItem.amount,
    pySum_eq, ratMul_eq, List.map_map, Function.comp_def]

/-- C7: download_report writes the raw response bytes to the file on a 200 status
and raises no error; on any other status it raises an error whose message contains
the status code and the response body text, and writes no file. -/
theorem download_report_status_behavior (resp : HttpResponse) (fn : String) :
    (resp.status_code = 200 →
      download_report_handle resp fn = Except.ok (fn, resp.content)) ∧
    (resp.status_code ≠ 200 →
      ∃ msg, download_report_handle resp fn = Except.error msg ∧
        (toString resp.status_code).data <:+: msg.data ∧
        resp.text.data <:+: msg.data) := by
  constructor
  · intro h
    simp [download_report_handle, h]
  · intro h
    refine ⟨"Failed to download report: " ++ toString resp.status_code ++ " " ++
      resp.text, by simp [download_report_handle, h], ?_, ?_⟩
    · exact ⟨"Failed to download report: ".data, (" " ++ resp.text).data,
        by simp [String.data_append, List.append_assoc]⟩
    · exact ⟨("Failed to download report: " ++ toString resp.status_code ++ " ").data,
        [], by simp [String.data_append, List.append_assoc]⟩

/-- C7 witness: a 200 response is written through; a 404 response with body text
raises a message containing the code and the body. -/
theorem download_report_status_behavior_witness :
    (download_report_handle { status_code := 200, content := [55], text := "ok" }
      "r.pdf" = Except.ok ("r.pdf", [55])) ∧
    (∃ msg, download_report_handle
        { status_code := 404, content := [], text := "not found" } "r.pdf" =
        Except.error msg ∧
      (toString (404 : Int)).data <:+: msg.data ∧
      "not found".data <:+: msg.data) :=
  ⟨(download_report_status_behavior
      { status_code := 200, content := [55], text := "ok" } "r.pdf").1 (by decide),
   (download_report_status_behavior
      { status_code := 404, content := [], text := "not found" } "r.pdf").2 (by decide)⟩

/-- C8: for nonnegative hours h the rendered string is Hh Mm with H the truncated
whole hours, floor h, and M the truncated minutes, floor of the fractional part of
h times 60 — truncation, never rounding up. -/
theorem hour_minute_format_truncates (p : Project) (es : List TimeEntry) (h : ℚ)
    (hnn : 0 ≤ h) :
    ProjectSummary.hour_minute_format { project := p, hours := h, entries := es } =
      toString (⌊h⌋ : Int) ++ "h " ++
        toString (⌊(h - ((⌊h⌋ : Int) : ℚ)) * 60⌋ : Int) ++ "m" := by
  have hfrac : (0 : ℚ) ≤ (h - ((⌊h⌋ : Int) : ℚ)) * 60 :=
    mul_nonneg (sub_nonneg.mpr (Int.floor_le h)) (by norm_num)
  show toString (pythonInt h) ++ "h " ++
      toString (pythonInt (ratMul (ratSub h ((pythonInt h : Int) : ℚ)) 60)) ++ "m" = _
  rw [pythonInt, if_pos hnn, ratSub_eq, ratMul_eq, pythonInt, if_pos hfrac]

/-- C8 witness: 2.999 hours (as the rational 2999/1000) renders as 2h 59m, not
3h 0m. -/
theorem hour_minute_format_truncates_witness :
    (0 : ℚ) ≤ mkRat 2999 1000 ∧
    ProjectSummary.hour_minute_format
      { project := { project_id := 1, name := some "A", hourly_rate := 10 },
        hours := mkRat 2999 1000, entries := [] } = "2h 59m" := by
  refine ⟨by decide, ?_⟩
  rw [hour_minute_format_truncates _ _ _ (by decide)]
  rw [← ratSub_eq, ← ratMul_eq]
  decide

/-- C9 counterexample: validating a TimeEntry whose stop (40) is strictly earlier
than its start (100) succeeds; nothing rejects it. -/
theorem time_entry_stop_before_start_accepted :
    (TimeEntry.model_validate "c" 60 "p" 1 100 40).isOk = true ∧
    (40 : Int) < 100 := by decide

/-- C9 as amended: TimeEntry validation imposes no constraint between start and
stop; any well-typed field values are accepted unchanged. -/
theorem time_entry_validate_no_constraint (c pn : String) (d pid s st : Int) :
    TimeEntry.model_validate c d pn pid s st =
      Except.ok { client_name := c, duration := d, project_name := pn,
                  project_id := pid, start := s, stop := st } := rfl

/-- C10: every summary produced by summarize_time_entries stores the entire input
entry list in its entries field, not the matching subset. -/
theorem summarize_entries_whole_input_list (te : List TimeEntry) (ps : List Project) :
    ∀ s ∈ summarize_time_entries te ps, s.entries = te := by
  intro s hs
  simp only [summarize_time_entries, List.mem_map] at hs
  obtain ⟨p, hp, rfl⟩ := hs
  rfl

/-- Entry used by the C10 witness: it belongs to project 7, matching no project. -/
def c10Entry : TimeEntry :=
  { client_name := "c", duration := 3600, project_name := "p",
    project_id := 7, start := 0, stop := 3600 }

/-- Project used by the C10 witness. -/
def c10Project : Project := { project_id := 2, name := some "B", hourly_rate := 5 }

/-- The summary the C10 witness expects: although no entry matches project 2, the
entries field still holds the whole input list. -/
def c10Summary : ProjectSummary :=
  { project := c10Project, hours := 0, entries := [c10Entry] }

/-- C10 witness: in a run where the matching subset is empty, the stored entries
field is nonetheless the whole input list. -/
theorem summarize_entries_whole_input_list_witness :
    c10Summary.entries = [c10Entry] :=
  summarize_entries_whole_input_list [c10Entry] [c10Project] c10Summary (by decide)
